import Mathlib

/-!
Shallow embedding of the js-peer MCP server's state-coordination layer:
the `StateManager` registry (src/state.ts), the lifecycle handler
(src/tools/node-management.ts), and the peer-management, messaging,
file-sharing and monitoring handlers.  External collaborators (the libp2p
node, pubsub, streams, the filesystem) are modelled as oracles passed to
the handlers; every handler returns the updated state manager, a result or
error (JS `throw` becomes `Except.error`), and the trace of calls it made
into the network subsystem.
-/

set_option linter.unusedVariables false

/-- Lifecycle phase of the node (`nodeStatus` field of `ServerState`). -/
inductive NodeStatus
  | stopped
  | starting
  | running
  | stopping
deriving DecidableEq, Repr

/-- String form of a `NodeStatus`, as stored in JS. -/
def NodeStatus.toStr : NodeStatus → String
  | .stopped => "stopped"
  | .starting => "starting"
  | .running => "running"
  | .stopping => "stopping"

/-- JS `Map.set` on an insertion-ordered association list: overwrite the
first binding of the key in place, else append at the end. -/
def mapSet {α : Type} : List (String × α) → String → α → List (String × α)
  | [], k, v => [(k, v)]
  | p :: rest, k, v => if p.1 = k then (k, v) :: rest else p :: mapSet rest k v

/-- JS `Map.get`: the first binding of the key, if any. -/
def mapGet {α : Type} : List (String × α) → String → Option α
  | [], _ => none
  | p :: rest, k => if p.1 = k then some p.2 else mapGet rest k

/-- JS `Set.add`: append the element unless already present. -/
def setAdd (s : List String) (t : String) : List String :=
  if t ∈ s then s else s ++ [t]

/-- JS `Set.delete`: remove every occurrence of the element. -/
def setDelete (s : List String) (t : String) : List String :=
  s.filter (fun x => x ≠ t)

/-- JS `Array.prototype.slice(start)` (single argument): a negative start
counts from the end, clamped at 0; `slice(-0)` is `slice(0)`. -/
def jsSliceFrom {α : Type} (xs : List α) (start : Int) : List α :=
  if start < 0 then xs.drop (xs.length - min xs.length (-start).toNat)
  else xs.drop (min start.toNat xs.length)

/-- ChatMessage record from src/types/index.ts (the optional
`fileObjectUrl` is never set by this layer and is omitted). -/
structure ChatMessage where
  msgId : String
  msg : String
  peerId : String
  read : Bool
  receivedAt : Nat
deriving DecidableEq, Repr

/-- ChatFile record from src/types/index.ts; `body` is the raw byte
content (each byte a `Nat` below 256 on real inputs). -/
structure ChatFile where
  id : String
  body : List Nat
  sender : String
deriving DecidableEq, Repr

/-- Connection record as exposed by the libp2p collaborator; only the
fields this layer reads. -/
structure Connection where
  id : String
  remotePeer : String
  remoteAddr : String
  protocols : List String
  status : String
  direction : String
deriving DecidableEq, Repr

/-- NodeHandle: the opaque libp2p node reference, restricted to the
identity data this layer reads from it (`peerId`, `getMultiaddrs`). -/
structure Node where
  peerId : String
  addrs : List String
deriving DecidableEq, Repr

/-- ServerState from src/types/index.ts; JS `Map`s become
insertion-ordered association lists, the JS `Set` an ordered list. -/
structure ServerState where
  libp2pNode : Option Node
  activeConnections : List (String × Connection)
  messageHistory : List (String × List ChatMessage)
  directMessages : List (String × List ChatMessage)
  sharedFiles : List (String × ChatFile)
  subscriptions : List String
  nodeStatus : NodeStatus
deriving DecidableEq, Repr

/-- Cumulative counters kept privately by the StateManager. -/
structure Stats where
  messagesReceived : Nat
  messagesSent : Nat
  bytesReceived : Nat
  bytesSent : Nat
deriving DecidableEq, Repr

/-- StateManager from src/state.ts: the server state plus the private
`startTime` and `stats` fields. -/
structure StateManager where
  state : ServerState
  startTime : Nat
  stats : Stats
deriving DecidableEq, Repr

/-- Initial StateManager (the field initialisers in src/state.ts). -/
def initialStateManager : StateManager :=
  { state :=
      { libp2pNode := none
        activeConnections := []
        messageHistory := []
        directMessages := []
        sharedFiles := []
        subscriptions := []
        nodeStatus := .stopped }
    startTime := 0
    stats := ⟨0, 0, 0, 0⟩ }

/-- StateManager.setNodeStatus: set the phase; on entering `running` with
a zero start time, record `Date.now()` (passed in as `now`). -/
def setNodeStatus (sm : StateManager) (status : NodeStatus) (now : Nat) : StateManager :=
  let sm' := { sm with state := { sm.state with nodeStatus := status } }
  if status = NodeStatus.running ∧ sm'.startTime = 0 then
    { sm' with startTime := now }
  else sm'

/-- StateManager.setLibp2pNode. -/
def setLibp2pNode (sm : StateManager) (node : Option Node) : StateManager :=
  { sm with state := { sm.state with libp2pNode := node } }

/-- Connection list keyed by `conn.id`, in list order (the loop body of
`updateConnections` run on a cleared map). -/
def buildConnMap (connections : List Connection) : List (String × Connection) :=
  connections.foldl (fun m c => mapSet m c.id c) []

/-- StateManager.updateConnections: clear the map, then re-insert every
reported connection keyed by its id. -/
def updateConnections (sm : StateManager) (connections : List Connection) : StateManager :=
  { sm with state := { sm.state with activeConnections := buildConnMap connections } }

/-- StateManager.addMessage: append to the topic's history (creating it
when absent) and bump `messagesReceived`. -/
def addMessage (sm : StateManager) (topic : String) (message : ChatMessage) : StateManager :=
  let hist := (mapGet sm.state.messageHistory topic).getD []
  { sm with
    state := { sm.state with messageHistory := mapSet sm.state.messageHistory topic (hist ++ [message]) }
    stats := { sm.stats with messagesReceived := sm.stats.messagesReceived + 1 } }

/-- StateManager.addDirectMessage: same append for the per-peer history. -/
def addDirectMessage (sm : StateManager) (peerId : String) (message : ChatMessage) : StateManager :=
  let hist := (mapGet sm.state.directMessages peerId).getD []
  { sm with
    state := { sm.state with directMessages := mapSet sm.state.directMessages peerId (hist ++ [message]) }
    stats := { sm.stats with messagesReceived := sm.stats.messagesReceived + 1 } }

/-- StateManager.getMessages. -/
def getMessages (sm : StateManager) (topic : String) : List ChatMessage :=
  (mapGet sm.state.messageHistory topic).getD []

/-- StateManager.getDirectMessages. -/
def getDirectMessages (sm : StateManager) (peerId : String) : List ChatMessage :=
  (mapGet sm.state.directMessages peerId).getD []

/-- StateManager.addSharedFile. -/
def addSharedFile (sm : StateManager) (file : ChatFile) : StateManager :=
  { sm with state := { sm.state with sharedFiles := mapSet sm.state.sharedFiles file.id file } }

/-- StateManager.getSharedFile. -/
def getSharedFile (sm : StateManager) (fileId : String) : Option ChatFile :=
  mapGet sm.state.sharedFiles fileId

/-- StateManager.addSubscription. -/
def addSubscription (sm : StateManager) (topic : String) : StateManager :=
  { sm with state := { sm.state with subscriptions := setAdd sm.state.subscriptions topic } }

/-- StateManager.removeSubscription. -/
def removeSubscription (sm : StateManager) (topic : String) : StateManager :=
  { sm with state := { sm.state with subscriptions := setDelete sm.state.subscriptions topic } }

/-- StateManager.incrementMessagesSent. -/
def incrementMessagesSent (sm : StateManager) : StateManager :=
  { sm with stats := { sm.stats with messagesSent := sm.stats.messagesSent + 1 } }

/-- StateManager.addBytesReceived. -/
def addBytesReceived (sm : StateManager) (bytes : Nat) : StateManager :=
  { sm with stats := { sm.stats with bytesReceived := sm.stats.bytesReceived + bytes } }

/-- StateManager.addBytesSent. -/
def addBytesSent (sm : StateManager) (bytes : Nat) : StateManager :=
  { sm with stats := { sm.stats with bytesSent := sm.stats.bytesSent + bytes } }

/-- Network statistics snapshot returned by getNetworkStats. -/
structure NetworkStats where
  totalConnections : Nat
  activeTopics : Nat
  messagesReceived : Nat
  messagesSent : Nat
  bytesReceived : Nat
  bytesSent : Nat
  uptime : Nat
deriving DecidableEq, Repr

/-- StateManager.getNetworkStats (`now` stands for `Date.now()`). -/
def getNetworkStats (sm : StateManager) (now : Nat) : NetworkStats :=
  { totalConnections := sm.state.activeConnections.length
    activeTopics := sm.state.subscriptions.length
    messagesReceived := sm.stats.messagesReceived
    messagesSent := sm.stats.messagesSent
    bytesReceived := sm.stats.bytesReceived
    bytesSent := sm.stats.bytesSent
    uptime := if sm.startTime > 0 then now - sm.startTime else 0 }

/-- Topic constants from src/constants.ts. -/
def CHAT_TOPIC : String := "universal-connectivity"

/-- File-announcement topic from src/constants.ts. -/
def CHAT_FILE_TOPIC : String := "universal-connectivity-file"

/-- File-exchange protocol id from src/constants.ts. -/
def FILE_EXCHANGE_PROTOCOL : String := "/universal-connectivity-file/1"

/-- String-to-bytes conversion pair used on the wire.  The source
delegates these to the external `uint8arrays` / `TextEncoder`
collaborators (UTF-8); the model keeps them abstract. -/
structure StringCodec where
  toBytes : String → List Nat
  ofBytes : List Nat → String

/-- Concrete codec used to evaluate the model on closed inputs: code
points out, code points back in. -/
def demoCodec : StringCodec :=
  { toBytes := fun s => s.data.map Char.toNat
    ofBytes := fun bs => String.mk (bs.map Char.ofNat) }

theorem mapGet_mapSet_self {α : Type} (m : List (String × α)) (k : String) (v : α) :
    mapGet (mapSet m k v) k = some v := by
  induction m with
  | nil => simp [mapSet, mapGet]
  | cons p rest ih =>
      by_cases h : p.1 = k
      · simp [mapSet, mapGet, h]
      · simp [mapSet, mapGet, h, ih]

theorem mapGet_mapSet_ne {α : Type} (m : List (String × α)) (k k' : String) (v : α)
    (h : k' ≠ k) : mapGet (mapSet m k v) k' = mapGet m k' := by
  have hk : k ≠ k' := Ne.symm h
  induction m with
  | nil => simp [mapSet, mapGet, hk]
  | cons p rest ih =>
      by_cases hp : p.1 = k
      · simp [mapSet, mapGet, hp, hk]
      · simp [mapSet, mapGet, hp, ih]

theorem not_mem_setDelete (s : List String) (t : String) : t ∉ setDelete s t := by
  simp [setDelete]

example : jsSliceFrom [1, 2, 3, 4, 5] (-(2 : Int)) = [4, 5] := by decide
example : jsSliceFrom [1, 2, 3] (-(7 : Int)) = [1, 2, 3] := by decide
example : jsSliceFrom [1, 2, 3] (-(0 : Int)) = [1, 2, 3] := by decide

/-- Calls into the external network subsystem, recorded in handler
traces. -/
inductive ExtCall
  | startLibp2pCall
  | nodeStart
  | nodeStop
  | addEventListener (event : String)
  | removeEventListener (event : String)
  | dial (target : String)
  | hangUp (peerId : String)
  | getConnections
  | getConnectionsFor (peerId : String)
  | peerStoreLookup (peerId : String)
  | pingCall (peerId : String)
  | pubsubPublish (topic : String) (bytes : List Nat)
  | pubsubSubscribe (topic : String)
  | pubsubUnsubscribe (topic : String)
  | pubsubGetSubscribers (topic : String)
  | pubsubAddEventListener
  | dmSend (peerId : String)
  | handleProtocol (protocolId : String)
  | dialProtocol (peerId : String) (protocolId : String)
  | registrarLookup
  | peerStoreAll
deriving DecidableEq, Repr

deriving instance DecidableEq for Except

/-- Outcome of one handler invocation: the state manager afterwards, the
returned value or thrown error, and the trace of network-subsystem
calls made. -/
structure HOut (R : Type) where
  sm : StateManager
  result : Except String R
  calls : List ExtCall
deriving DecidableEq, Repr

/-- Guard error shared by every non-lifecycle handler. -/
def noActiveNodeMsg : String :=
  "No libp2p node is running. Create and start a node first."

/-- NodeConfig from src/types/index.ts (passed through to startLibp2p). -/
structure NodeConfig where
  transports : Option (List String)
  enableRelay : Option Bool
  bootstrapPeers : Option (List String)
  listenAddresses : Option (List String)
deriving DecidableEq, Repr

/-- Node-management commands (the tool names of
src/tools/node-management.ts). -/
inductive NodeCmd
  | create_libp2p_node (config : NodeConfig)
  | start_libp2p_node
  | stop_libp2p_node
  | get_node_status
deriving DecidableEq, Repr

/-- Collaborator outcomes consumed by the node-management handler. -/
structure NodeOracle where
  startLibp2p : NodeConfig → Except String Node
  startResult : Except String Unit
  stopResult : Except String Unit

/-- Results of the node-management tools. -/
inductive NodeResult
  | created (peerId : String) (addresses : List String) (status : String)
  | started (peerId : String) (addresses : List String) (status : String)
  | alreadyRunning (message : String) (peerId : String)
  | stopMsg (message : String)
  | statusReport (status : String) (peerId : Option String) (addresses : List String)
      (connections : Nat) (subscriptions : Option (List String))
deriving DecidableEq, Repr

/-- handleNodeManagement from src/tools/node-management.ts.  `now` stands
for `Date.now()`; collaborator calls are read from the oracle. -/
def handleNodeManagement (cmd : NodeCmd) (oracle : NodeOracle) (now : Nat)
    (sm : StateManager) : HOut NodeResult :=
  let state := sm.state
  match cmd with
  | .create_libp2p_node config =>
      match state.libp2pNode with
      | some _ => ⟨sm, .error "Libp2p node already exists. Stop the current node first.", []⟩
      | none =>
          let sm1 := setNodeStatus sm .starting now
          match oracle.startLibp2p config with
          | .error e =>
              ⟨setNodeStatus sm1 .stopped now,
               .error ("Failed to create libp2p node: " ++ e),
               [.startLibp2pCall]⟩
          | .ok node =>
              let sm2 := setLibp2pNode sm1 (some node)
              let sm3 := setNodeStatus sm2 .running now
              ⟨sm3, .ok (.created node.peerId node.addrs "running"),
               [.startLibp2pCall, .addEventListener "connection:open",
                .addEventListener "connection:close"]⟩
  | .start_libp2p_node =>
      match state.libp2pNode with
      | none => ⟨sm, .error "No libp2p node exists. Create a node first.", []⟩
      | some node =>
          if state.nodeStatus = NodeStatus.running then
            ⟨sm, .ok (.alreadyRunning "Node is already running" node.peerId), []⟩
          else
            match oracle.startResult with
            | .error e => ⟨sm, .error ("Failed to start libp2p node: " ++ e), [.nodeStart]⟩
            | .ok _ =>
                ⟨setNodeStatus sm .running now,
                 .ok (.started node.peerId node.addrs "running"), [.nodeStart]⟩
  | .stop_libp2p_node =>
      match state.libp2pNode with
      | none => ⟨sm, .error "No libp2p node exists.", []⟩
      | some _ =>
          let sm1 := setNodeStatus sm .stopping now
          match oracle.stopResult with
          | .error e => ⟨sm1, .error ("Failed to stop libp2p node: " ++ e), [.nodeStop]⟩
          | .ok _ =>
              let sm2 := setNodeStatus sm1 .stopped now
              let sm3 := setLibp2pNode sm2 none
              ⟨sm3, .ok (.stopMsg "Node stopped successfully"), [.nodeStop]⟩
  | .get_node_status =>
      match state.libp2pNode with
      | none => ⟨sm, .ok (.statusReport "stopped" none [] 0 none), []⟩
      | some node =>
          ⟨sm, .ok (.statusReport state.nodeStatus.toStr (some node.peerId) node.addrs
                    state.activeConnections.length (some state.subscriptions)), []⟩

/-- JS truthiness of an optional string argument (absent and empty are
both falsy). -/
def strTruthy : Option String → Bool
  | some s => s ≠ ""
  | none => false

/-- Messaging commands (the tool names of the messaging tools file). -/
inductive MsgCmd
  | send_group_message (topic : Option String) (message : String)
  | send_direct_message (peerId : String) (message : String)
  | subscribe_to_topic (topic : String)
  | unsubscribe_from_topic (topic : String)
  | get_message_history (topic : Option String) (peerId : Option String) (limit : Option Nat)
  | get_topic_subscribers (topic : Option String)
deriving DecidableEq, Repr

/-- Collaborator outcomes consumed by the messaging handler. -/
structure MessagingOracle where
  publish : String → List Nat → Except String (List String)
  dmSendResult : String → String → Except String Bool
  subscribeResult : String → Except String Unit
  unsubscribeResult : String → Except String Unit
  getSubscribers : String → List String

/-- Results of the messaging tools. -/
inductive MsgResult
  | group (topic : String) (message : String) (recipients : List String)
      (recipientCount : Nat) (timestamp : Nat)
  | direct (success : Bool) (peerId : String) (message : String) (timestamp : Nat)
  | sub (topic : String) (subscribers : List String)
  | unsub (topic : String) (message : String)
  | hist (key : String) (messages : List ChatMessage) (count : Nat)
  | subscribers (topic : String) (subscribers : List String) (count : Nat)
deriving DecidableEq, Repr

/-- handleMessaging from the messaging tools file.  `freshId` stands for
the `uuidv4()` drawn in the call, `now` for `Date.now()`, `codec` for the
external UTF-8 TextEncoder/TextDecoder pair. -/
def handleMessaging (cmd : MsgCmd) (oracle : MessagingOracle) (codec : StringCodec)
    (freshId : String) (now : Nat) (sm : StateManager) : HOut MsgResult :=
  match sm.state.libp2pNode with
  | none => ⟨sm, .error noActiveNodeMsg, []⟩
  | some node =>
      match cmd with
      | .send_group_message topicArg message =>
          let topic := topicArg.getD CHAT_TOPIC
          let messageBytes := codec.toBytes message
          match oracle.publish topic messageBytes with
          | .error e =>
              ⟨sm, .error ("Failed to send group message: " ++ e),
               [.pubsubPublish topic messageBytes]⟩
          | .ok recipients =>
              let chatMessage : ChatMessage :=
                { msgId := freshId, msg := message, peerId := node.peerId
                  read := true, receivedAt := now }
              let sm1 := addMessage sm topic chatMessage
              let sm2 := incrementMessagesSent sm1
              let sm3 := addBytesSent sm2 messageBytes.length
              ⟨sm3, .ok (.group topic message recipients recipients.length now),
               [.pubsubPublish topic messageBytes]⟩
      | .send_direct_message peerId message =>
          match oracle.dmSendResult peerId message with
          | .error e =>
              ⟨sm, .error ("Failed to send direct message: " ++ e), [.dmSend peerId]⟩
          | .ok success =>
              if success then
                let chatMessage : ChatMessage :=
                  { msgId := freshId, msg := message, peerId := node.peerId
                    read := true, receivedAt := now }
                let sm1 := addDirectMessage sm peerId chatMessage
                let sm2 := incrementMessagesSent sm1
                let sm3 := addBytesSent sm2 (codec.toBytes message).length
                ⟨sm3, .ok (.direct success peerId message now), [.dmSend peerId]⟩
              else
                ⟨sm, .ok (.direct success peerId message now), [.dmSend peerId]⟩
      | .subscribe_to_topic topic =>
          match oracle.subscribeResult topic with
          | .error e =>
              ⟨sm, .error ("Failed to subscribe to topic: " ++ e), [.pubsubSubscribe topic]⟩
          | .ok _ =>
              let sm1 := addSubscription sm topic
              ⟨sm1, .ok (.sub topic (oracle.getSubscribers topic)),
               [.pubsubSubscribe topic, .pubsubAddEventListener,
                .pubsubGetSubscribers topic]⟩
      | .unsubscribe_from_topic topic =>
          match oracle.unsubscribeResult topic with
          | .error e =>
              ⟨sm, .error ("Failed to unsubscribe from topic: " ++ e),
               [.pubsubUnsubscribe topic]⟩
          | .ok _ =>
              let sm1 := removeSubscription sm topic
              ⟨sm1, .ok (.unsub topic ("Unsubscribed from topic: " ++ topic)),
               [.pubsubUnsubscribe topic]⟩
      | .get_message_history topicArg peerArg limitArg =>
          let limit := limitArg.getD 50
          if strTruthy topicArg then
            let t := topicArg.getD ""
            let messages := jsSliceFrom (getMessages sm t) (-(limit : Int))
            ⟨sm, .ok (.hist t messages messages.length), []⟩
          else if strTruthy peerArg then
            let p := peerArg.getD ""
            let messages := jsSliceFrom (getDirectMessages sm p) (-(limit : Int))
            ⟨sm, .ok (.hist p messages messages.length), []⟩
          else
            ⟨sm, .error "Either topic or peerId must be specified", []⟩
      | .get_topic_subscribers topicArg =>
          let topic := topicArg.getD CHAT_TOPIC
          let subs := oracle.getSubscribers topic
          ⟨sm, .ok (.subscribers topic subs subs.length), [.pubsubGetSubscribers topic]⟩

/-- What the initiator observes on the file-exchange stream after writing
its request: the response frames up to a clean close, or an abrupt
stream failure. -/
inductive StreamOutcome
  | frames (fs : List (List Nat))
  | aborted (msg : String)
deriving DecidableEq, Repr

/-- Responder side of the file-exchange protocol (the stream handler
registered by share_file): decode each request frame as a file id, look
it up, and answer with the file bytes; an unknown id throws, aborting
the stream. -/
def responderProcess (files : List (String × ChatFile)) (codec : StringCodec) :
    List (List Nat) → Except String (List (List Nat))
  | [] => .ok []
  | f :: rest =>
      let requestedFileId := codec.ofBytes f
      match mapGet files requestedFileId with
      | some file => (responderProcess files codec rest).map (fun out => file.body :: out)
      | none => .error ("File not found: " ++ requestedFileId)

/-- Stream outcome the initiator observes against a responder holding
`files`: the response frames on success, an abrupt failure when the
responder's lookup throws. -/
def responderOutcome (files : List (String × ChatFile)) (codec : StringCodec)
    (requestFrames : List (List Nat)) : StreamOutcome :=
  match responderProcess files codec requestFrames with
  | .ok out => .frames out
  | .error e => .aborted e

/-- Fetch oracle of a requester talking to a live responder that serves
`files`: dialing succeeds and the stream behaves as `responderOutcome`
on the single request frame written. -/
def respondingFetch (files : List (String × ChatFile)) (codec : StringCodec) :
    String → List Nat → Except String StreamOutcome :=
  fun _ payload => .ok (responderOutcome files codec [payload])

/-- File-sharing commands (the tool names of the file-sharing tools
file).  `fileContent` carries the base64 payload string as supplied by
the caller; decoding it is the collaborator Buffer's job (oracle field
`base64Decode`). -/
inductive FileCmd
  | share_file (filePath : Option String) (fileContent : Option String)
      (fileName : Option String) (announce : Bool)
  | request_file (peerId : String) (fileId : String)
  | list_shared_files
  | announce_file (fileId : String)
deriving DecidableEq, Repr

/-- Collaborator outcomes consumed by the file-sharing handler.  `fetch`
bundles `dialProtocol` plus the stream exchange: an error is a dial
failure, otherwise the observed stream outcome. -/
structure FileOracle where
  readFile : String → Except String (List Nat)
  base64Decode : String → List Nat
  publish : String → List Nat → Except String (List String)
  fetch : String → List Nat → Except String StreamOutcome

/-- Per-file summary produced by list_shared_files. -/
structure FileEntry where
  id : String
  sender : String
  size : Nat
  isLocal : Bool
deriving DecidableEq, Repr

/-- Results of the file-sharing tools. -/
inductive FileResult
  | shared (fileId : String) (fileName : String) (fileSize : Nat)
      (announced : Bool) (recipients : List String)
  | requested (fileId : String) (peerId : String) (fileSize : Nat) (timestamp : Nat)
  | fileList (files : List FileEntry) (count : Nat)
  | announced (fileId : String) (recipients : List String)
      (recipientCount : Nat) (timestamp : Nat)
deriving DecidableEq, Repr

/-- File name derived from a path in share_file:
`filePath.split('/').pop() || 'unknown'`. -/
def fileNameOfPath (path : String) : String :=
  let nm := (path.splitOn "/").getLastD ""
  if nm = "" then "unknown" else nm

/-- handleFileSharing from the file-sharing tools file.  `freshId` stands
for the `uuidv4()` drawn in the call, `now` for `Date.now()`. -/
def handleFileSharing (cmd : FileCmd) (oracle : FileOracle) (codec : StringCodec)
    (freshId : String) (now : Nat) (sm : StateManager) : HOut FileResult :=
  match sm.state.libp2pNode with
  | none => ⟨sm, .error noActiveNodeMsg, []⟩
  | some node =>
      match cmd with
      | .share_file filePath fileContent fileName announce =>
          let resolved : Except String (List Nat × String) :=
            if strTruthy filePath then
              match oracle.readFile (filePath.getD "") with
              | .ok body => .ok (body, fileNameOfPath (filePath.getD ""))
              | .error e => .error e
            else if strTruthy fileContent && strTruthy fileName then
              .ok (oracle.base64Decode (fileContent.getD ""), fileName.getD "")
            else
              .error "Error: Either filePath or both fileContent and fileName must be provided"
          match resolved with
          | .error e => ⟨sm, .error ("Failed to share file: " ++ e), []⟩
          | .ok (fileBody, actualFileName) =>
              let file : ChatFile := { id := freshId, body := fileBody, sender := node.peerId }
              let sm1 := addSharedFile sm file
              if announce then
                let fileIdBytes := codec.toBytes freshId
                match oracle.publish CHAT_FILE_TOPIC fileIdBytes with
                | .error e =>
                    ⟨sm1, .error ("Failed to share file: " ++ e),
                     [.handleProtocol FILE_EXCHANGE_PROTOCOL,
                      .pubsubPublish CHAT_FILE_TOPIC fileIdBytes]⟩
                | .ok recipients =>
                    ⟨sm1, .ok (.shared freshId actualFileName fileBody.length true recipients),
                     [.handleProtocol FILE_EXCHANGE_PROTOCOL,
                      .pubsubPublish CHAT_FILE_TOPIC fileIdBytes]⟩
              else
                ⟨sm1, .ok (.shared freshId actualFileName fileBody.length false []),
                 [.handleProtocol FILE_EXCHANGE_PROTOCOL]⟩
      | .request_file peerId fileId =>
          match oracle.fetch peerId (codec.toBytes fileId) with
          | .error e =>
              ⟨sm, .error ("Failed to request file: " ++ e),
               [.dialProtocol peerId FILE_EXCHANGE_PROTOCOL]⟩
          | .ok (.aborted e) =>
              ⟨sm, .error ("Failed to request file: " ++ e),
               [.dialProtocol peerId FILE_EXCHANGE_PROTOCOL]⟩
          | .ok (.frames fs) =>
              match fs.head? with
              | none =>
                  ⟨sm, .error "Failed to request file: Error: No file data received",
                   [.dialProtocol peerId FILE_EXCHANGE_PROTOCOL]⟩
              | some fileData =>
                  let file : ChatFile := { id := fileId, body := fileData, sender := peerId }
                  let sm1 := addSharedFile sm file
                  ⟨sm1, .ok (.requested fileId peerId fileData.length now),
                   [.dialProtocol peerId FILE_EXCHANGE_PROTOCOL]⟩
      | .list_shared_files =>
          let files := sm.state.sharedFiles.map (fun p =>
            { id := p.2.id, sender := p.2.sender, size := p.2.body.length
              isLocal := p.2.sender = node.peerId : FileEntry })
          ⟨sm, .ok (.fileList files files.length), []⟩
      | .announce_file fileId =>
          match getSharedFile sm fileId with
          | none =>
              ⟨sm, .error ("Failed to announce file: Error: File not found: " ++ fileId), []⟩
          | some _ =>
              let fileIdBytes := codec.toBytes fileId
              match oracle.publish CHAT_FILE_TOPIC fileIdBytes with
              | .error e =>
                  ⟨sm, .error ("Failed to announce file: " ++ e),
                   [.pubsubPublish CHAT_FILE_TOPIC fileIdBytes]⟩
              | .ok recipients =>
                  ⟨sm, .ok (.announced fileId recipients recipients.length now),
                   [.pubsubPublish CHAT_FILE_TOPIC fileIdBytes]⟩

/-- Peer as stored in the libp2p peer store, restricted to the fields
this layer reads. -/
structure StoredPeer where
  peerId : String
  addresses : List String
  protocols : List String
deriving DecidableEq, Repr

/-- Peer-management commands (the tool names of the peer-management
tools file). -/
inductive PeerCmd
  | discover_peers (timeout : Option Nat)
  | connect_to_peer (target : String)
  | disconnect_from_peer (peerId : String)
  | list_connections
  | get_peer_info (peerId : String)
  | ping_peer (peerId : String) (timeout : Option Nat)
deriving DecidableEq, Repr

/-- Collaborator outcomes consumed by the peer-management handler. -/
structure PeerOracle where
  discovered : List (String × List String)
  dialResult : String → Except String Connection
  hangUpResult : String → Except String Unit
  getConnections : List Connection
  getConnectionsFor : String → List Connection
  peerStoreHas : String → Bool
  peerStoreGet : String → Option StoredPeer
  hasPing : Bool
  pingLatency : String → Except String Nat

/-- PeerInfo record from src/types/index.ts. -/
structure PeerInfo where
  peerId : String
  multiaddrs : List String
  protocols : List String
  connected : Bool
  connectionCount : Nat
deriving DecidableEq, Repr

/-- Per-connection summary produced by list_connections. -/
structure ConnSummary where
  id : String
  peerId : String
  remoteAddr : String
  protocols : List String
  status : String
  direction : String
deriving DecidableEq, Repr

/-- Results of the peer-management tools. -/
inductive PeerResult
  | discovered (peers : List (String × List String)) (count : Nat)
  | connected (peerId : String) (remoteAddr : String) (protocols : List String)
  | disconnected (message : String)
  | connList (connections : List ConnSummary) (count : Nat)
  | info (peerInfo : PeerInfo)
  | pinged (peerId : String) (latency : Nat) (timestamp : Nat)
deriving DecidableEq, Repr

/-- First-occurrence deduplication, the order JS `[...new Set(list)]`
produces. -/
def dedupFirst : List String → List String
  | [] => []
  | x :: rest => x :: (dedupFirst rest).filter (fun y => y ≠ x)

/-- handlePeerManagement from the peer-management tools file.  `now`
stands for `Date.now()`; discovery events collected before the timeout
are read from the oracle. -/
def handlePeerManagement (cmd : PeerCmd) (oracle : PeerOracle) (now : Nat)
    (sm : StateManager) : HOut PeerResult :=
  match sm.state.libp2pNode with
  | none => ⟨sm, .error noActiveNodeMsg, []⟩
  | some node =>
      match cmd with
      | .discover_peers timeoutArg =>
          ⟨sm, .ok (.discovered oracle.discovered oracle.discovered.length),
           [.addEventListener "peer:discovery", .removeEventListener "peer:discovery"]⟩
      | .connect_to_peer target =>
          match oracle.dialResult target with
          | .error e => ⟨sm, .error ("Failed to connect to peer: " ++ e), [.dial target]⟩
          | .ok conn =>
              let sm1 := updateConnections sm oracle.getConnections
              ⟨sm1, .ok (.connected conn.remotePeer conn.remoteAddr conn.protocols),
               [.dial target, .getConnections]⟩
      | .disconnect_from_peer peerId =>
          match oracle.hangUpResult peerId with
          | .error e => ⟨sm, .error ("Failed to disconnect from peer: " ++ e), [.hangUp peerId]⟩
          | .ok _ =>
              let sm1 := updateConnections sm oracle.getConnections
              ⟨sm1, .ok (.disconnected ("Disconnected from peer " ++ peerId)),
               [.hangUp peerId, .getConnections]⟩
      | .list_connections =>
          let conns := oracle.getConnections
          ⟨sm, .ok (.connList (conns.map (fun c =>
              { id := c.id, peerId := c.remotePeer, remoteAddr := c.remoteAddr
                protocols := c.protocols, status := c.status
                direction := c.direction : ConnSummary })) conns.length),
           [.getConnections]⟩
      | .get_peer_info peerId =>
          let connections := oracle.getConnectionsFor peerId
          let base : PeerInfo :=
            { peerId := peerId, multiaddrs := [], protocols := []
              connected := connections.length > 0
              connectionCount := connections.length }
          let fromStore :=
            if oracle.peerStoreHas peerId then
              match oracle.peerStoreGet peerId with
              | some stored =>
                  { base with multiaddrs := stored.addresses, protocols := stored.protocols }
              | none => base
            else base
          let merged := dedupFirst (fromStore.multiaddrs ++ connections.map (fun c => c.remoteAddr))
          let final :=
            if connections.length > 0 then { fromStore with multiaddrs := merged }
            else fromStore
          ⟨sm, .ok (.info final),
           [.getConnectionsFor peerId, .peerStoreLookup peerId]⟩
      | .ping_peer peerId timeoutArg =>
          if oracle.hasPing then
            match oracle.pingLatency peerId with
            | .error e => ⟨sm, .error ("Failed to ping peer: " ++ e), [.pingCall peerId]⟩
            | .ok latency => ⟨sm, .ok (.pinged peerId latency now), [.pingCall peerId]⟩
          else
            ⟨sm, .error "Failed to ping peer: Error: Ping service not available", []⟩

/-- Monitoring commands (the tool names of the monitoring tools file). -/
inductive MonCmd
  | get_network_stats
  | get_protocol_handlers
  | enable_debug_logging (level : Option String) (components : Option (List String))
  | get_peer_store_info (limit : Option Nat)
deriving DecidableEq, Repr

/-- Collaborator outcomes consumed by the monitoring handler. -/
structure MonOracle where
  getConnections : List Connection
  registrarProtocols : Except String (List String)
  peerStorePeers : List StoredPeer

/-- Results of the monitoring tools. -/
inductive MonResult
  | stats (stats : NetworkStats) (protocolDistribution : List (String × Nat))
      (nodeId : String) (addresses : List String)
  | protoList (protocols : List String) (count : Nat)
  | debug (level : String) (components : List String) (message : String)
  | peerStore (peers : List StoredPeer) (count : Nat) (hasMore : Bool)
deriving DecidableEq, Repr

/-- Protocol distribution computed by get_network_stats: count every
protocol name over the remote addresses of the active connections. -/
def protocolDistributionOf (connections : List Connection) : List (String × Nat) :=
  connections.foldl (fun m c =>
    c.protocols.foldl (fun m' proto => mapSet m' proto ((mapGet m' proto).getD 0 + 1)) m) []

/-- handleMonitoring from the monitoring tools file. -/
def handleMonitoring (cmd : MonCmd) (oracle : MonOracle) (now : Nat)
    (sm : StateManager) : HOut MonResult :=
  match sm.state.libp2pNode with
  | none => ⟨sm, .error noActiveNodeMsg, []⟩
  | some node =>
      match cmd with
      | .get_network_stats =>
          ⟨sm, .ok (.stats (getNetworkStats sm now)
                    (protocolDistributionOf oracle.getConnections)
                    node.peerId node.addrs),
           [.getConnections]⟩
      | .get_protocol_handlers =>
          match oracle.registrarProtocols with
          | .error e => ⟨sm, .error ("Failed to get protocol handlers: " ++ e), [.registrarLookup]⟩
          | .ok protocols => ⟨sm, .ok (.protoList protocols protocols.length), [.registrarLookup]⟩
      | .enable_debug_logging levelArg componentsArg =>
          let level := levelArg.getD "info"
          ⟨sm, .ok (.debug level (componentsArg.getD ["all"])
                    ("Debug logging configured for level: " ++ level)), []⟩
      | .get_peer_store_info limitArg =>
          let limit := limitArg.getD 50
          let allPeers := oracle.peerStorePeers.take limit
          ⟨sm, .ok (.peerStore allPeers allPeers.length (allPeers.length = limit)), [.peerStoreAll]⟩

/-- Demo node used to evaluate the model on closed inputs. -/
def nodeA : Node := ⟨"12D3KooPeerA", ["/ip4/127.0.0.1/tcp/4001"]⟩

/-- StateManager holding a running node, for closed evaluations. -/
def smRunning : StateManager :=
  { initialStateManager with
    state := { initialStateManager.state with libp2pNode := some nodeA, nodeStatus := .running } }

/-- StateManager holding a node whose phase is `stopping` — the state
visible while a stop call awaits the subsystem shutdown. -/
def smStopping : StateManager :=
  { initialStateManager with
    state := { initialStateManager.state with libp2pNode := some nodeA, nodeStatus := .stopping } }

/-- Messaging oracle for closed evaluations: every collaborator call
succeeds and reports no peers. -/
def demoMsgOracle : MessagingOracle :=
  { publish := fun _ _ => .ok []
    dmSendResult := fun _ _ => .ok true
    subscribeResult := fun _ => .ok ()
    unsubscribeResult := fun _ => .ok ()
    getSubscribers := fun _ => [] }

/-- Node-management oracle whose node construction succeeds. -/
def demoNodeOracleOk : NodeOracle :=
  { startLibp2p := fun _ => .ok nodeA, startResult := .ok (), stopResult := .ok () }

/-- Node-management oracle whose node construction fails. -/
def demoNodeOracleFail : NodeOracle :=
  { startLibp2p := fun _ => .error "Error: connect ECONNREFUSED"
    startResult := .ok (), stopResult := .ok () }

/-- Empty node configuration. -/
def demoConfig : NodeConfig := ⟨none, none, none, none⟩

/-- File oracle for closed evaluations; the base64 decoder stands in by
returning the payload's code points. -/
def demoFileOracle : FileOracle :=
  { readFile := fun _ => .error "ENOENT"
    base64Decode := fun s => s.data.map Char.toNat
    publish := fun _ _ => .ok []
    fetch := fun _ _ => .ok (.frames []) }

/-- Peer oracle for closed evaluations. -/
def demoPeerOracle : PeerOracle :=
  { discovered := []
    dialResult := fun _ => .error "no route"
    hangUpResult := fun _ => .ok ()
    getConnections := []
    getConnectionsFor := fun _ => []
    peerStoreHas := fun _ => false
    peerStoreGet := fun _ => none
    hasPing := true
    pingLatency := fun _ => .ok 1 }

/-- Monitoring oracle for closed evaluations. -/
def demoMonOracle : MonOracle :=
  { getConnections := [], registrarProtocols := .ok [], peerStorePeers := [] }

/-- C2: a second create_libp2p_node while a NodeHandle exists fails
immediately with the already-exists error, leaves the StateManager —
hence the phase and the stored handle — untouched, and makes no
collaborator call. -/
theorem create_fails_when_node_exists (sm : StateManager) (n : Node) (cfg : NodeConfig)
    (oracle : NodeOracle) (now : Nat) (h : sm.state.libp2pNode = some n) :
    handleNodeManagement (.create_libp2p_node cfg) oracle now sm =
      ⟨sm, .error "Libp2p node already exists. Stop the current node first.", []⟩ ∧
    (handleNodeManagement (.create_libp2p_node cfg) oracle now sm).sm.state.nodeStatus =
      sm.state.nodeStatus ∧
    (handleNodeManagement (.create_libp2p_node cfg) oracle now sm).sm.state.libp2pNode = some n := by
  have h1 : handleNodeManagement (.create_libp2p_node cfg) oracle now sm =
      ⟨sm, .error "Libp2p node already exists. Stop the current node first.", []⟩ := by
    simp only [handleNodeManagement, h]
  exact ⟨h1, by rw [h1], by rw [h1]; exact h⟩

/-- Witness for C2 at a concrete running node. -/
theorem create_fails_when_node_exists_witness :
    smRunning.state.libp2pNode = some nodeA ∧
    handleNodeManagement (.create_libp2p_node demoConfig) demoNodeOracleOk 0 smRunning =
      ⟨smRunning, .error "Libp2p node already exists. Stop the current node first.", []⟩ :=
  ⟨rfl, (create_fails_when_node_exists smRunning nodeA demoConfig demoNodeOracleOk 0 rfl).1⟩

/-- C3: when node construction (startLibp2p) fails inside
create_libp2p_node, the phase is reset to stopped, no NodeHandle is
stored (libp2pNode stays none), and the error is surfaced. -/
theorem create_failure_resets_state (sm : StateManager) (cfg : NodeConfig) (oracle : NodeOracle)
    (now : Nat) (e : String) (hnode : sm.state.libp2pNode = none)
    (hstart : oracle.startLibp2p cfg = .error e) :
    (handleNodeManagement (.create_libp2p_node cfg) oracle now sm).sm.state.nodeStatus =
      NodeStatus.stopped ∧
    (handleNodeManagement (.create_libp2p_node cfg) oracle now sm).sm.state.libp2pNode = none ∧
    (handleNodeManagement (.create_libp2p_node cfg) oracle now sm).result =
      .error ("Failed to create libp2p node: " ++ e) := by
  simp only [handleNodeManagement, hnode, hstart]
  simp [setNodeStatus, hnode]

/-- Witness for C3 at a concrete failing construction. -/
theorem create_failure_resets_state_witness :
    initialStateManager.state.libp2pNode = none ∧
    demoNodeOracleFail.startLibp2p demoConfig = .error "Error: connect ECONNREFUSED" ∧
    (handleNodeManagement (.create_libp2p_node demoConfig) demoNodeOracleFail 0
        initialStateManager).sm.state.nodeStatus = NodeStatus.stopped ∧
    (handleNodeManagement (.create_libp2p_node demoConfig) demoNodeOracleFail 0
        initialStateManager).sm.state.libp2pNode = none :=
  ⟨rfl, rfl,
   (create_failure_resets_state initialStateManager demoConfig demoNodeOracleFail 0
      "Error: connect ECONNREFUSED" rfl rfl).1,
   (create_failure_resets_state initialStateManager demoConfig demoNodeOracleFail 0
      "Error: connect ECONNREFUSED" rfl rfl).2.1⟩

/-- Adapter action installed on connection-open and connection-close:
replace the stored map with the full list the subsystem reports. -/
def onConnectionEvent (sm : StateManager) (currentFullList : List Connection) : StateManager :=
  updateConnections sm currentFullList

/-- C6: after any sequence of connection events, the stored connection
map is exactly the most recent reported full list keyed by connection
id, and replaying the same list is idempotent. -/
theorem connections_match_last_report (sm : StateManager) (past : List (List Connection))
    (latest : List Connection) :
    ((past ++ [latest]).foldl onConnectionEvent sm).state.activeConnections =
      buildConnMap latest ∧
    onConnectionEvent (onConnectionEvent sm latest) latest = onConnectionEvent sm latest := by
  constructor
  · rw [List.foldl_append]
    rfl
  · rfl

/-- C1 (amended): every non-lifecycle handler — peer management,
messaging, file sharing, monitoring — fails with the "no active node"
error and makes no network-subsystem call whenever the NodeHandle is
absent; presence of the handle is the only condition checked, the phase
is never consulted. -/
theorem no_active_node_guard (sm : StateManager) (h : sm.state.libp2pNode = none) :
    (∀ (cmd : PeerCmd) (oracle : PeerOracle) (now : Nat),
       handlePeerManagement cmd oracle now sm = ⟨sm, .error noActiveNodeMsg, []⟩) ∧
    (∀ (cmd : MsgCmd) (oracle : MessagingOracle) (codec : StringCodec) (freshId : String)
       (now : Nat),
       handleMessaging cmd oracle codec freshId now sm = ⟨sm, .error noActiveNodeMsg, []⟩) ∧
    (∀ (cmd : FileCmd) (oracle : FileOracle) (codec : StringCodec) (freshId : String)
       (now : Nat),
       handleFileSharing cmd oracle codec freshId now sm = ⟨sm, .error noActiveNodeMsg, []⟩) ∧
    (∀ (cmd : MonCmd) (oracle : MonOracle) (now : Nat),
       handleMonitoring cmd oracle now sm = ⟨sm, .error noActiveNodeMsg, []⟩) := by
  refine ⟨?_, ?_, ?_, ?_⟩ <;> intros <;>
    simp only [handlePeerManagement, handleMessaging, handleFileSharing, handleMonitoring, h]

/-- Witness for the amended C1 at a concrete empty state. -/
theorem no_active_node_guard_witness :
    initialStateManager.state.libp2pNode = none ∧
    handleMessaging (.get_topic_subscribers (some "t")) demoMsgOracle demoCodec "id" 0
        initialStateManager = ⟨initialStateManager, .error noActiveNodeMsg, []⟩ :=
  ⟨rfl, (no_active_node_guard initialStateManager rfl).2.1
          (.get_topic_subscribers (some "t")) demoMsgOracle demoCodec "id" 0⟩

/-- Counterexample to C1 as stated: with a NodeHandle present but phase
`stopping` (not Running), a messaging command does not fail with the
"no active node" error — it succeeds and calls into the network
subsystem. -/
theorem no_active_node_guard_counterexample :
    smStopping.state.libp2pNode.isSome = true ∧
    smStopping.state.nodeStatus ≠ NodeStatus.running ∧
    (handleMessaging (.get_topic_subscribers (some "t")) demoMsgOracle demoCodec "id" 0
        smStopping).result ≠ Except.error noActiveNodeMsg ∧
    (handleMessaging (.get_topic_subscribers (some "t")) demoMsgOracle demoCodec "id" 0
        smStopping).result = .ok (.subscribers "t" [] 0) ∧
    (handleMessaging (.get_topic_subscribers (some "t")) demoMsgOracle demoCodec "id" 0
        smStopping).calls = [.pubsubGetSubscribers "t"] := by
  refine ⟨rfl, by decide, by decide, rfl, rfl⟩

/-- Adapter-side append of a whole message sequence to one topic. -/
def appendMessages (sm : StateManager) (topic : String) (msgs : List ChatMessage) : StateManager :=
  msgs.foldl (fun s m => addMessage s topic m) sm

theorem getMessages_addMessage_self (sm : StateManager) (topic : String) (m : ChatMessage) :
    getMessages (addMessage sm topic m) topic = getMessages sm topic ++ [m] := by
  simp [getMessages, addMessage, mapGet_mapSet_self]

theorem getMessages_appendMessages (sm : StateManager) (topic : String)
    (msgs : List ChatMessage) :
    getMessages (appendMessages sm topic msgs) topic = getMessages sm topic ++ msgs := by
  induction msgs generalizing sm with
  | nil => simp [appendMessages]
  | cons m rest ih =>
      have step : appendMessages sm topic (m :: rest) =
          appendMessages (addMessage sm topic m) topic rest := rfl
      rw [step, ih, getMessages_addMessage_self, List.append_assoc]
      rfl

theorem appendMessages_libp2pNode (sm : StateManager) (topic : String)
    (msgs : List ChatMessage) :
    (appendMessages sm topic msgs).state.libp2pNode = sm.state.libp2pNode := by
  induction msgs generalizing sm with
  | nil => rfl
  | cons m rest ih =>
      have step : appendMessages sm topic (m :: rest) =
          appendMessages (addMessage sm topic m) topic rest := rfl
      rw [step, ih]
      rfl

theorem jsSliceFrom_neg {α : Type} (xs : List α) (k : Nat) (hk : 0 < k) :
    jsSliceFrom xs (-(k : Int)) = xs.drop (xs.length - k) := by
  unfold jsSliceFrom
  have h1 : -(k : Int) < 0 := by
    have : (0 : Int) < (k : Int) := by exact_mod_cast hk
    omega
  rw [if_pos h1]
  have h2 : (-(-(k : Int))).toNat = k := by simp
  rw [h2]
  rcases le_total xs.length k with h | h
  · rw [min_eq_left h]
    simp [Nat.sub_eq_zero_of_le h]
  · rw [min_eq_right h]

theorem jsSliceFrom_zero {α : Type} (xs : List α) : jsSliceFrom xs (0 : Int) = xs := by
  simp [jsSliceFrom]

/-- Demo messages for closed evaluations. -/
def msg1 : ChatMessage := ⟨"m1", "one", "peerX", false, 1⟩

/-- Second demo message. -/
def msg2 : ChatMessage := ⟨"m2", "two", "peerX", false, 2⟩

/-- Third demo message. -/
def msg3 : ChatMessage := ⟨"m3", "three", "peerX", false, 3⟩

/-- C7: appending N messages to a topic yields a history of exactly those
N messages in arrival order, and get_message_history with a positive
limit k returns exactly the last k of them (all of them when fewer than
k exist) — `List.drop (length - k)` is that suffix in both cases. -/
theorem history_append_and_limit (sm : StateManager) (node : Node) (topic : String)
    (msgs : List ChatMessage) (k : Nat) (oracle : MessagingOracle) (codec : StringCodec)
    (fid : String) (now : Nat)
    (hnode : sm.state.libp2pNode = some node)
    (hempty : mapGet sm.state.messageHistory topic = none)
    (htopic : topic ≠ "")
    (hk : 0 < k) :
    getMessages (appendMessages sm topic msgs) topic = msgs ∧
    (handleMessaging (.get_message_history (some topic) none (some k)) oracle codec fid now
        (appendMessages sm topic msgs)).result =
      .ok (.hist topic (msgs.drop (msgs.length - k)) (msgs.drop (msgs.length - k)).length) := by
  have hfull : getMessages (appendMessages sm topic msgs) topic = msgs := by
    rw [getMessages_appendMessages]
    simp [getMessages, hempty]
  refine ⟨hfull, ?_⟩
  have hnode' : (appendMessages sm topic msgs).state.libp2pNode = some node := by
    rw [appendMessages_libp2pNode, hnode]
  simp only [handleMessaging, hnode']
  simp [strTruthy, htopic, hfull, jsSliceFrom_neg _ k hk]

/-- Witness for C7: three appended messages, limit two returns the last
two. -/
theorem history_append_and_limit_witness :
    smRunning.state.libp2pNode = some nodeA ∧
    mapGet smRunning.state.messageHistory "t" = none ∧
    (0 : Nat) < 2 ∧
    getMessages (appendMessages smRunning "t" [msg1, msg2, msg3]) "t" = [msg1, msg2, msg3] ∧
    (handleMessaging (.get_message_history (some "t") none (some 2)) demoMsgOracle demoCodec
        "id" 0 (appendMessages smRunning "t" [msg1, msg2, msg3])).result =
      .ok (.hist "t" [msg2, msg3] 2) :=
  ⟨rfl, rfl, by decide,
   (history_append_and_limit smRunning nodeA "t" [msg1, msg2, msg3] 2 demoMsgOracle demoCodec
      "id" 0 rfl rfl (by decide) (by decide)).1,
   (history_append_and_limit smRunning nodeA "t" [msg1, msg2, msg3] 2 demoMsgOracle demoCodec
      "id" 0 rfl rfl (by decide) (by decide)).2⟩

/-- C9: a successful send_group_message increments messagesSent and also
messagesReceived (the locally sent message is appended to the topic
history through addMessage, which counts it as received). -/
theorem group_message_increments_both (sm : StateManager) (node : Node)
    (topicArg : Option String) (message : String) (recips : List String)
    (oracle : MessagingOracle) (codec : StringCodec) (fid : String) (now : Nat)
    (hnode : sm.state.libp2pNode = some node)
    (hpub : oracle.publish (topicArg.getD CHAT_TOPIC) (codec.toBytes message) = .ok recips) :
    (handleMessaging (.send_group_message topicArg message) oracle codec fid now
        sm).sm.stats.messagesSent = sm.stats.messagesSent + 1 ∧
    (handleMessaging (.send_group_message topicArg message) oracle codec fid now
        sm).sm.stats.messagesReceived = sm.stats.messagesReceived + 1 ∧
    (handleMessaging (.send_group_message topicArg message) oracle codec fid now sm).result =
      .ok (.group (topicArg.getD CHAT_TOPIC) message recips recips.length now) := by
  simp [handleMessaging, hnode, hpub, addMessage, incrementMessagesSent, addBytesSent]

/-- Witness for C9 at a concrete successful publish. -/
theorem group_message_increments_both_witness :
    smRunning.state.libp2pNode = some nodeA ∧
    demoMsgOracle.publish ((some "t").getD CHAT_TOPIC) (demoCodec.toBytes "hi") = .ok [] ∧
    (handleMessaging (.send_group_message (some "t") "hi") demoMsgOracle demoCodec "id" 7
        smRunning).sm.stats.messagesSent = smRunning.stats.messagesSent + 1 ∧
    (handleMessaging (.send_group_message (some "t") "hi") demoMsgOracle demoCodec "id" 7
        smRunning).sm.stats.messagesReceived = smRunning.stats.messagesReceived + 1 :=
  ⟨rfl, rfl,
   (group_message_increments_both smRunning nodeA (some "t") "hi" [] demoMsgOracle demoCodec
      "id" 7 rfl rfl).1,
   (group_message_increments_both smRunning nodeA (some "t") "hi" [] demoMsgOracle demoCodec
      "id" 7 rfl rfl).2.1⟩

/-- C10: get_message_history with limit explicitly 0 returns the entire
history — `slice(-0)` is `slice(0)` — in both the topic branch and the
peerId branch. -/
theorem limit_zero_returns_all (sm : StateManager) (node : Node) (t p : String)
    (oracle : MessagingOracle) (codec : StringCodec) (fid : String) (now : Nat)
    (hnode : sm.state.libp2pNode = some node) (ht : t ≠ "") (hp : p ≠ "") :
    (handleMessaging (.get_message_history (some t) none (some 0)) oracle codec fid now
        sm).result = .ok (.hist t (getMessages sm t) (getMessages sm t).length) ∧
    (handleMessaging (.get_message_history none (some p) (some 0)) oracle codec fid now
        sm).result = .ok (.hist p (getDirectMessages sm p) (getDirectMessages sm p).length) := by
  constructor <;>
    simp [handleMessaging, hnode, strTruthy, ht, hp, jsSliceFrom_zero]

/-- StateManager with topic and direct-message history, for closed
evaluations. -/
def smHist : StateManager :=
  addDirectMessage (appendMessages smRunning "t" [msg1, msg2]) "peerB" msg3

/-- Witness for C10 on a state with non-empty histories. -/
theorem limit_zero_returns_all_witness :
    smHist.state.libp2pNode = some nodeA ∧
    getMessages smHist "t" = [msg1, msg2] ∧
    getDirectMessages smHist "peerB" = [msg3] ∧
    (handleMessaging (.get_message_history (some "t") none (some 0)) demoMsgOracle demoCodec
        "id" 0 smHist).result =
      .ok (.hist "t" (getMessages smHist "t") (getMessages smHist "t").length) ∧
    (handleMessaging (.get_message_history none (some "peerB") (some 0)) demoMsgOracle demoCodec
        "id" 0 smHist).result =
      .ok (.hist "peerB" (getDirectMessages smHist "peerB") (getDirectMessages smHist "peerB").length) :=
  ⟨rfl, by decide, by decide,
   (limit_zero_returns_all smHist nodeA "t" "peerB" demoMsgOracle demoCodec "id" 0 rfl
      (by decide) (by decide)).1,
   (limit_zero_returns_all smHist nodeA "t" "peerB" demoMsgOracle demoCodec "id" 0 rfl
      (by decide) (by decide)).2⟩

/-- C8: subscribing to a topic and then unsubscribing leaves the topic
absent from the subscription set, while the unsubscribe changes no other
state field (message history, connections, direct messages, shared
files, handle, phase, counters, start time), and get_topic_subscribers
on that topic still succeeds afterwards. -/
theorem unsubscribe_removes_topic_only (sm : StateManager) (node : Node) (t : String)
    (oracle : MessagingOracle) (codec : StringCodec) (fid1 fid2 fid3 : String) (now : Nat)
    (hnode : sm.state.libp2pNode = some node)
    (hsub : oracle.subscribeResult t = .ok ())
    (hunsub : oracle.unsubscribeResult t = .ok ()) :
    t ∉ ((handleMessaging (.unsubscribe_from_topic t) oracle codec fid2 now
        (handleMessaging (.subscribe_to_topic t) oracle codec fid1 now
          sm).sm).sm).state.subscriptions ∧
    ((handleMessaging (.unsubscribe_from_topic t) oracle codec fid2 now
        (handleMessaging (.subscribe_to_topic t) oracle codec fid1 now sm).sm).sm).state.messageHistory =
      ((handleMessaging (.subscribe_to_topic t) oracle codec fid1 now sm).sm).state.messageHistory ∧
    ((handleMessaging (.unsubscribe_from_topic t) oracle codec fid2 now
        (handleMessaging (.subscribe_to_topic t) oracle codec fid1 now sm).sm).sm).state.libp2pNode =
      ((handleMessaging (.subscribe_to_topic t) oracle codec fid1 now sm).sm).state.libp2pNode ∧
    ((handleMessaging (.unsubscribe_from_topic t) oracle codec fid2 now
        (handleMessaging (.subscribe_to_topic t) oracle codec fid1 now sm).sm).sm).state.activeConnections =
      ((handleMessaging (.subscribe_to_topic t) oracle codec fid1 now sm).sm).state.activeConnections ∧
    ((handleMessaging (.unsubscribe_from_topic t) oracle codec fid2 now
        (handleMessaging (.subscribe_to_topic t) oracle codec fid1 now sm).sm).sm).state.directMessages =
      ((handleMessaging (.subscribe_to_topic t) oracle codec fid1 now sm).sm).state.directMessages ∧
    ((handleMessaging (.unsubscribe_from_topic t) oracle codec fid2 now
        (handleMessaging (.subscribe_to_topic t) oracle codec fid1 now sm).sm).sm).state.sharedFiles =
      ((handleMessaging (.subscribe_to_topic t) oracle codec fid1 now sm).sm).state.sharedFiles ∧
    ((handleMessaging (.unsubscribe_from_topic t) oracle codec fid2 now
        (handleMessaging (.subscribe_to_topic t) oracle codec fid1 now sm).sm).sm).state.nodeStatus =
      ((handleMessaging (.subscribe_to_topic t) oracle codec fid1 now sm).sm).state.nodeStatus ∧
    ((handleMessaging (.unsubscribe_from_topic t) oracle codec fid2 now
        (handleMessaging (.subscribe_to_topic t) oracle codec fid1 now sm).sm).sm).stats =
      ((handleMessaging (.subscribe_to_topic t) oracle codec fid1 now sm).sm).stats ∧
    ((handleMessaging (.unsubscribe_from_topic t) oracle codec fid2 now
        (handleMessaging (.subscribe_to_topic t) oracle codec fid1 now sm).sm).sm).startTime =
      ((handleMessaging (.subscribe_to_topic t) oracle codec fid1 now sm).sm).startTime ∧
    (handleMessaging (.get_topic_subscribers (some t)) oracle codec fid3 now
        ((handleMessaging (.unsubscribe_from_topic t) oracle codec fid2 now
          (handleMessaging (.subscribe_to_topic t) oracle codec fid1 now sm).sm).sm)).result =
      .ok (.subscribers t (oracle.getSubscribers t) (oracle.getSubscribers t).length) := by
  have e1 : (handleMessaging (.subscribe_to_topic t) oracle codec fid1 now sm).sm =
      addSubscription sm t := by
    simp [handleMessaging, hnode, hsub]
  have hnode1 : (addSubscription sm t).state.libp2pNode = some node := by
    simpa [addSubscription] using hnode
  have e2 : (handleMessaging (.unsubscribe_from_topic t) oracle codec fid2 now
      (addSubscription sm t)).sm = removeSubscription (addSubscription sm t) t := by
    simp [handleMessaging, hnode1, hunsub]
  have hnode2 : (removeSubscription (addSubscription sm t) t).state.libp2pNode = some node := by
    simpa [removeSubscription, addSubscription] using hnode
  rw [e1, e2]
  refine ⟨not_mem_setDelete _ t, rfl, rfl, rfl, rfl, rfl, rfl, rfl, rfl, ?_⟩
  simp [handleMessaging, hnode2]

/-- Witness for C8 at a concrete topic. -/
theorem unsubscribe_removes_topic_only_witness :
    smRunning.state.libp2pNode = some nodeA ∧
    demoMsgOracle.subscribeResult "t" = .ok () ∧
    demoMsgOracle.unsubscribeResult "t" = .ok () ∧
    "t" ∉ ((handleMessaging (.unsubscribe_from_topic "t") demoMsgOracle demoCodec "b" 0
        (handleMessaging (.subscribe_to_topic "t") demoMsgOracle demoCodec "a" 0
          smRunning).sm).sm).state.subscriptions ∧
    (handleMessaging (.get_topic_subscribers (some "t")) demoMsgOracle demoCodec "c" 0
        ((handleMessaging (.unsubscribe_from_topic "t") demoMsgOracle demoCodec "b" 0
          (handleMessaging (.subscribe_to_topic "t") demoMsgOracle demoCodec "a" 0
            smRunning).sm).sm)).result = .ok (.subscribers "t" [] 0) :=
  ⟨rfl, rfl, rfl,
   (unsubscribe_removes_topic_only smRunning nodeA "t" demoMsgOracle demoCodec "a" "b" "c" 0
      rfl rfl rfl).1,
   (unsubscribe_removes_topic_only smRunning nodeA "t" demoMsgOracle demoCodec "a" "b" "c" 0
      rfl rfl rfl).2.2.2.2.2.2.2.2.2⟩

/-- C4: sharing a file of B bytes (a truthy base64 payload that the
collaborator decodes to `body`, with a truthy file name, matching the
source's `fileContent && fileName` check) and then requesting it back
from the same responder succeeds, and the requester stores a SharedFile
whose byte content has length exactly B and whose sender is the
responder's peer identity. -/
theorem file_roundtrip (content : String) (body : List Nat) (nm : String)
    (smR smQ : StateManager) (nodeR nodeQ : Node) (codec : StringCodec)
    (freshId fid2 : String) (oracleR oracleQ : FileOracle) (nowS nowR : Nat)
    (hcontent : content ≠ "") (hnm : nm ≠ "")
    (hdec : oracleR.base64Decode content = body)
    (hR : smR.state.libp2pNode = some nodeR)
    (hQ : smQ.state.libp2pNode = some nodeQ)
    (hrt : codec.ofBytes (codec.toBytes freshId) = freshId)
    (hfetch : oracleQ.fetch = respondingFetch
      ((handleFileSharing (.share_file none (some content) (some nm) false) oracleR codec freshId
        nowS smR).sm).state.sharedFiles codec) :
    (handleFileSharing (.share_file none (some content) (some nm) false) oracleR codec freshId
        nowS smR).result = .ok (.shared freshId nm body.length false []) ∧
    (handleFileSharing (.request_file nodeR.peerId freshId) oracleQ codec fid2 nowR
        smQ).result = .ok (.requested freshId nodeR.peerId body.length nowR) ∧
    getSharedFile (handleFileSharing (.request_file nodeR.peerId freshId) oracleQ codec fid2
        nowR smQ).sm freshId =
      some { id := freshId, body := body, sender := nodeR.peerId } := by
  have e1 : (handleFileSharing (.share_file none (some content) (some nm) false) oracleR codec
      freshId nowS smR).sm =
      addSharedFile smR { id := freshId, body := body, sender := nodeR.peerId } := by
    simp [handleFileSharing, hR, strTruthy, hcontent, hnm, hdec]
  have hres : (handleFileSharing (.share_file none (some content) (some nm) false) oracleR codec
      freshId nowS smR).result = .ok (.shared freshId nm body.length false []) := by
    simp [handleFileSharing, hR, strTruthy, hcontent, hnm, hdec]
  have hfiles : ((handleFileSharing (.share_file none (some content) (some nm) false) oracleR codec
      freshId nowS smR).sm).state.sharedFiles =
      mapSet smR.state.sharedFiles freshId { id := freshId, body := body, sender := nodeR.peerId } := by
    rw [e1]
    rfl
  have houtcome : responderOutcome
      (mapSet smR.state.sharedFiles freshId { id := freshId, body := body, sender := nodeR.peerId })
      codec [codec.toBytes freshId] = .frames [body] := by
    unfold responderOutcome responderProcess
    rw [hrt]
    simp [mapGet_mapSet_self, responderProcess, Except.map]
  have hfetch' : oracleQ.fetch nodeR.peerId (codec.toBytes freshId) = .ok (.frames [body]) := by
    rw [hfetch, hfiles]
    unfold respondingFetch
    rw [houtcome]
  refine ⟨hres, ?_, ?_⟩ <;>
    simp [handleFileSharing, hQ, hfetch', getSharedFile, addSharedFile, mapGet_mapSet_self]

/-- Share-then-request run at concrete inputs, for the C4 witness; the
demo decoder turns "xyz" into the three bytes [120, 121, 122]. -/
def rtShareOut : HOut FileResult :=
  handleFileSharing (.share_file none (some "xyz") (some "a.txt") false) demoFileOracle
    demoCodec "f1" 0 smRunning

/-- Requester oracle wired to the concrete responder state. -/
def rtFetchOracle : FileOracle :=
  { demoFileOracle with fetch := respondingFetch rtShareOut.sm.state.sharedFiles demoCodec }

/-- Witness for C4 on a 3-byte file with truthy payload and name. -/
theorem file_roundtrip_witness :
    smRunning.state.libp2pNode = some nodeA ∧
    ("xyz" : String) ≠ "" ∧
    ("a.txt" : String) ≠ "" ∧
    demoFileOracle.base64Decode "xyz" = [120, 121, 122] ∧
    demoCodec.ofBytes (demoCodec.toBytes "f1") = "f1" ∧
    (handleFileSharing (.request_file nodeA.peerId "f1") rtFetchOracle demoCodec "g" 5
        smRunning).result = .ok (.requested "f1" nodeA.peerId 3 5) ∧
    getSharedFile (handleFileSharing (.request_file nodeA.peerId "f1") rtFetchOracle demoCodec
        "g" 5 smRunning).sm "f1" =
      some { id := "f1", body := [120, 121, 122], sender := nodeA.peerId } :=
  ⟨rfl, by decide, by decide, by decide, by decide,
   (file_roundtrip "xyz" [120, 121, 122] "a.txt" smRunning smRunning nodeA nodeA demoCodec "f1"
      "g" demoFileOracle rtFetchOracle 0 5 (by decide) (by decide) (by decide) rfl rfl
      (by decide) rfl).2.1,
   (file_roundtrip "xyz" [120, 121, 122] "a.txt" smRunning smRunning nodeA nodeA demoCodec "f1"
      "g" demoFileOracle rtFetchOracle 0 5 (by decide) (by decide) (by decide) rfl rfl
      (by decide) rfl).2.2⟩

theorem requestErrors_distinct (fid : String) :
    ("Failed to request file: " ++ ("File not found: " ++ fid)) ≠
      "Failed to request file: Error: No file data received" := by
  intro h
  have hd := congrArg String.data h
  rw [String.data_append, String.data_append] at hd
  rw [← List.append_assoc] at hd
  have h24 := congrArg (fun l => l.getD 24 ' ') hd
  simp only [] at h24
  rw [List.getD_append _ _ _ _ (by decide)] at h24
  revert h24
  decide

/-- C5: requesting a file id the responder does not have fails with the
file-not-found condition (the responder aborts the stream), while
requesting from a peer that cleanly closes the stream without a
response frame fails with "no file data received"; the two error
results are distinct. -/
theorem request_error_distinction (smR smQ : StateManager) (node : Node) (codec : StringCodec)
    (fileId fid2 : String) (oracleA oracleB : FileOracle) (now : Nat) (peerA peerB : String)
    (hQ : smQ.state.libp2pNode = some node)
    (hrt : codec.ofBytes (codec.toBytes fileId) = fileId)
    (hmiss : mapGet smR.state.sharedFiles fileId = none)
    (hfA : oracleA.fetch = respondingFetch smR.state.sharedFiles codec)
    (hfB : oracleB.fetch peerB (codec.toBytes fileId) = .ok (.frames [])) :
    (handleFileSharing (.request_file peerA fileId) oracleA codec fid2 now smQ).result =
      .error ("Failed to request file: " ++ ("File not found: " ++ fileId)) ∧
    (handleFileSharing (.request_file peerB fileId) oracleB codec fid2 now smQ).result =
      .error "Failed to request file: Error: No file data received" ∧
    (handleFileSharing (.request_file peerA fileId) oracleA codec fid2 now smQ).result ≠
      (handleFileSharing (.request_file peerB fileId) oracleB codec fid2 now smQ).result := by
  have hfA' : oracleA.fetch peerA (codec.toBytes fileId) =
      .ok (.aborted ("File not found: " ++ fileId)) := by
    rw [hfA]
    unfold respondingFetch responderOutcome responderProcess
    rw [hrt]
    simp [hmiss]
  have h1 : (handleFileSharing (.request_file peerA fileId) oracleA codec fid2 now smQ).result =
      .error ("Failed to request file: " ++ ("File not found: " ++ fileId)) := by
    simp [handleFileSharing, hQ, hfA']
  have h2 : (handleFileSharing (.request_file peerB fileId) oracleB codec fid2 now smQ).result =
      .error "Failed to request file: Error: No file data received" := by
    simp [handleFileSharing, hQ, hfB]
  refine ⟨h1, h2, ?_⟩
  rw [h1, h2]
  simp only [ne_eq, Except.error.injEq]
  exact requestErrors_distinct fileId

/-- Requester oracle wired to a responder with no shared files, for the
C5 witness. -/
def notFoundOracle : FileOracle :=
  { demoFileOracle with fetch := respondingFetch smRunning.state.sharedFiles demoCodec }

/-- Witness for C5 at a concrete missing file id. -/
theorem request_error_distinction_witness :
    smRunning.state.libp2pNode = some nodeA ∧
    mapGet smRunning.state.sharedFiles "nope" = none ∧
    (handleFileSharing (.request_file "pA" "nope") notFoundOracle demoCodec "g" 0
        smRunning).result =
      .error ("Failed to request file: " ++ ("File not found: " ++ "nope")) ∧
    (handleFileSharing (.request_file "pB" "nope") demoFileOracle demoCodec "g" 0
        smRunning).result =
      .error "Failed to request file: Error: No file data received" :=
  ⟨rfl, rfl,
   (request_error_distinction smRunning smRunning nodeA demoCodec "nope" "g" notFoundOracle
      demoFileOracle 0 "pA" "pB" rfl (by decide) rfl rfl rfl).1,
   (request_error_distinction smRunning smRunning nodeA demoCodec "nope" "g" notFoundOracle
      demoFileOracle 0 "pA" "pB" rfl (by decide) rfl rfl rfl).2.1⟩
